import Mathlib

/-!
Verification of the kanae rate-limiting core
(`src/server/utils/limiter/{extension,middleware,utils}.py`).

The limiter engine, its enforcement adapters and the key-extraction helpers
are shallowly embedded below.  Python callables stored inside bindings
(key functions, cost functions, exemption predicates) become Lean functions;
the mutable `Limiter` object becomes an explicit `LimiterState` record that
every operation threads through; exceptions become explicit result fields.
The counter store used by the source is the external `limits` library
(`FixedWindowRateLimiter` over Redis/Memory storage); that library is not
part of this repository, so its fixed-window contract is modelled from the
spec (sections 4.2 and 4.3) as an association-list counter store.
-/

namespace Kanae

/-- Association-list lookup keyed by strings (models Python dict lookup for
the registries `_route_limits`, `_dynamic_route_limits`, and header access). -/
def assocGet {α : Type} (xs : List (String × α)) (k : String) : Option α :=
  match xs with
  | [] => none
  | (k2, v) :: rest => if k2 = k then some v else assocGet rest k

/-- Quota item: `amount` hits per window of `multiples * granularitySeconds`
seconds.  Mirrors the `limits` library `RateLimitItem` values that the quota
parser produces (spec section 3, QuotaSpec). -/
structure RateLimitItem where
  amount : Nat
  multiples : Nat
  granularitySeconds : Nat
deriving DecidableEq

/-- Modelled from the spec: ordering of quota items used by
`Limiter._evaluate_limits` when it tracks the single tightest quota
("smallest `amount`", spec section 4.4 step 5).  The source delegates the
comparison `lim.limit < limit_for_header[0]` to the external limits library. -/
def RateLimitItem.ltAmount (a b : RateLimitItem) : Bool :=
  a.amount < b.amount

/-- The `request.client` address, when present (starlette `Address`).
An absent host is modelled by the empty string (Python falsy). -/
structure Client where
  host : String
deriving DecidableEq

/-- The parts of a starlette `Request` the limiter reads. -/
structure Request where
  headers : List (String × String)
  client : Option Client
  method : String
  path : String
deriving DecidableEq

/-- `utils.py get_ipaddr` (an identical copy lives in `extension.py`):
the X_FORWARDED_FOR header if present, else the client host, else
"127.0.0.1" when the request has no client or no client host. -/
def get_ipaddr (request : Request) : String :=
  match assocGet request.headers "X_FORWARDED_FOR" with
  | some v => v
  | none =>
    match request.client with
    | none => "127.0.0.1"
    | some c => if c.host = "" then "127.0.0.1" else c.host

/-- `utils.py get_remote_address` (identical copy in `extension.py`):
the client host, or "127.0.0.1" when the request has no client or no
client host. -/
def get_remote_address (request : Request) : String :=
  match request.client with
  | none => "127.0.0.1"
  | some c => if c.host = "" then "127.0.0.1" else c.host

/-- `True` when the request carries no usable client address (no `client`
object, or a falsy `client.host`); this is the guard both key functions
test before falling back to "127.0.0.1". -/
def noClientAddr (request : Request) : Bool :=
  match request.client with
  | none => true
  | some c => c.host = ""

/-- One concrete limit binding (`extension.py class Limit`): a quota item plus
the callables and flags captured at registration time.  The callable-scope
variant of the source is broken (it references an undefined global `request`),
so only string scopes are represented, as an `Option String`. -/
structure Limit where
  limit : RateLimitItem
  keyFunc : Request → String
  scope : Option String
  perMethod : Bool
  methods : Option (List String)
  errorMessage : Option String
  exemptWhen : Option (Request → Bool)
  cost : Request → Nat
  overrideDefaults : Bool

/-- `Limit.is_exempt`: false when no predicate is configured, else the
predicate applied to the request. -/
def Limit.isExempt (l : Limit) (request : Request) : Bool :=
  match l.exemptWhen with
  | none => false
  | some f => f request

/-- The `Limit.scope` property: the empty string when no scope was given. -/
def Limit.scopeStr (l : Limit) : String := l.scope.getD ""

/-- The method filter of `_evaluate_limits`:
`lim.methods is not None and request.method.lower() not in lim.methods`. -/
def Limit.methodExcluded (l : Limit) (request : Request) : Bool :=
  match l.methods with
  | none => false
  | some ms => !(ms.contains request.method.toLower)

/-- A counter bucket is identified by the key arguments (identity, scope,
optional key prefix) together with the quota item, exactly the data the
source passes to `limiter.hit(lim.limit, *args, cost)`. -/
structure StoreKey where
  args : List String
  item : RateLimitItem
deriving DecidableEq

/-- Modelled from the spec (section 4.2): the counter store is a mapping from
bucket keys to counters, empty buckets reading 0.  Window expiry is outside a
single fixed window and not represented. -/
abbrev Store := List (StoreKey × Nat)

def Store.get (s : Store) (k : StoreKey) : Nat :=
  match s with
  | [] => 0
  | (k2, v) :: rest => if k2 = k then v else Store.get rest k

def Store.set (s : Store) (k : StoreKey) (v : Nat) : Store :=
  match s with
  | [] => [(k, v)]
  | (k2, w) :: rest => if k2 = k then (k, v) :: rest else (k2, w) :: Store.set rest k v

/-- Modelled from the spec (sections 4.2 and 4.3): the fixed-window strategy
`hit` atomically adds `cost` to the bucket of `(args, item)` and admits the
request when the post-increment total is still at most `item.amount`.  The
source calls the external limits library here. -/
def Store.hit (s : Store) (item : RateLimitItem) (args : List String) (cost : Nat) :
    Bool × Store :=
  let k : StoreKey := ⟨args, item⟩
  let total := Store.get s k + cost
  (decide (total ≤ item.amount), Store.set s k total)

/-- Result of one `Limiter._evaluate_limits` call.
`storageFailed` models a `StorageError` escaping from a counter-store call
(when it is true the remaining fields are the values at the failure point and
`request.state.view_rate_limit` was not assigned).  `failedLimit` models the
raised `RateLimitExceeded`; `viewRateLimit` is the value stored into
`request.state.view_rate_limit`.  `considered` is proof instrumentation only:
it records, in order, the `(item, args)` pairs that reached the store `hit`
call; it influences no other field. -/
structure EvalResult where
  storageFailed : Bool
  failedLimit : Option Limit
  viewRateLimit : Option (RateLimitItem × List String)
  store : Store
  considered : List (RateLimitItem × List String)

/-- The header-tracking update of `_evaluate_limits`:
`if not limit_for_header or lim.limit < limit_for_header[0]`. -/
def headerUpd (acc : Option (RateLimitItem × List String))
    (p : RateLimitItem × List String) : Option (RateLimitItem × List String) :=
  match acc with
  | none => some p
  | some q => if p.1.ltAmount q.1 then some p else acc

/-- The quota a left-to-right tightest-tracking pass would choose. -/
def tightest (ps : List (RateLimitItem × List String)) :
    Option (RateLimitItem × List String) :=
  ps.foldl headerUpd none

/-- The loop body of `Limiter._evaluate_limits` (extension.py lines 447-495).
`hitFails` models the primary storage being unreachable: the first store
`hit` raises, mirroring a `StorageError` from the backend. -/
def evalLimitsLoop (keyPref : String) (request : Request) (endpoint : String)
    (hitFails : Bool) (store : Store) (lfh : Option (RateLimitItem × List String))
    (acc : List (RateLimitItem × List String)) :
    List Limit → EvalResult
  | [] => ⟨false, none, lfh, store, acc⟩
  | lim :: rest =>
    let limitScope0 := if lim.scopeStr = "" then endpoint else lim.scopeStr
    if lim.isExempt request then
      evalLimitsLoop keyPref request endpoint hitFails store lfh acc rest
    else if lim.methodExcluded request then
      evalLimitsLoop keyPref request endpoint hitFails store lfh acc rest
    else
      let limitScope :=
        if lim.perMethod then limitScope0 ++ ":" ++ request.method else limitScope0
      let limitKey := lim.keyFunc request
      if limitKey ≠ "" ∧ limitScope ≠ "" then
        let args :=
          if keyPref = "" then [limitKey, limitScope] else [keyPref, limitKey, limitScope]
        let lfh2 := headerUpd lfh (lim.limit, args)
        if hitFails then
          ⟨true, none, lfh, store, acc⟩
        else
          let hitRes := Store.hit store lim.limit args (lim.cost request)
          if hitRes.fst then
            evalLimitsLoop keyPref request endpoint hitFails hitRes.snd lfh2
              (acc ++ [(lim.limit, args)]) rest
          else
            ⟨false, some lim, some (lim.limit, args), hitRes.snd,
              acc ++ [(lim.limit, args)]⟩
      else
        evalLimitsLoop keyPref request endpoint hitFails store lfh acc rest

/-- `Limiter._evaluate_limits`. -/
def evaluateLimits (keyPref : String) (request : Request) (endpoint : String)
    (hitFails : Bool) (store : Store) (limits : List Limit) : EvalResult :=
  evalLimitsLoop keyPref request endpoint hitFails store none [] limits

/-- The data of the `RateLimitExceeded` exception: `status_code=429` is fixed
by its constructor; the detail is the configured error message, else a
rendering of the quota item (`str(limit.limit)`, rendered by the external
library; the rendering here is a faithful-enough stand-in since no claim
depends on its exact text). -/
structure RateLimitExceededData where
  failedLimit : Limit
  statusCode : Nat
  detail : String

def renderItem (it : RateLimitItem) : String :=
  toString it.amount ++ " per " ++ toString it.multiples ++ " x " ++
    toString it.granularitySeconds ++ " seconds"

def mkRateLimitExceeded (l : Limit) : RateLimitExceededData :=
  { failedLimit := l
    statusCode := 429
    detail :=
      match l.errorMessage with
      | some m => m
      | none => renderItem l.limit }

/-- The mutable and configured state of a `Limiter` instance
(`extension.py Limiter.__init__`).  `keyPref` is the source's key_prefix
setting; `keyStyleUrl` is `key_style == "url"`.  Registered limit groups are
kept already expanded into their `Limit` lists (a static `LimitGroup` yields
a fixed list).  A dynamic group is a function of the request returning
`none` when the provider raises `ValueError` (the source logs and skips it).
`fallbackLimiterPresent` models `self._fallback_limiter is not None`; at
construction it equals `inMemoryFallbackEnabled`. -/
structure LimiterState where
  enabled : Bool
  headersEnabled : Bool
  autoCheck : Bool
  swallowErrors : Bool
  keyPref : String
  keyStyleUrl : Bool
  inMemoryFallbackEnabled : Bool
  fallbackLimiterPresent : Bool
  storageDead : Bool
  checkBackendCount : Nat
  lastCheckBackend : Nat
  defaultLimits : List (List Limit)
  applicationLimits : List (List Limit)
  inMemoryFallback : List (List Limit)
  exemptRoutes : List String
  requestFilters : List Bool
  routeLimits : List (String × List Limit)
  dynamicRouteLimits : List (String × List (Request → Option (List Limit)))
  markedForLimiting : List String
  primaryStore : Store
  fallbackStore : Store

/-- `MAX_BACKEND_CHECKS` (extension.py). -/
def MAX_BACKEND_CHECKS : Nat := 5

/-- The backoff fields of the limiter that `_should_check_backend` reads and
writes. -/
structure BackoffState where
  checkBackendCount : Nat
  lastCheckBackend : Nat
deriving DecidableEq

/-- `Limiter._should_check_backend` (extension.py lines 422-431), with
`time.monotonic()` supplied as `now` (whole seconds).  The counter is first
reset to 0 once it exceeds `MAX_BACKEND_CHECKS`; the probe fires when more
than `2 ^ count` seconds elapsed since the last probe, recording `now` and
incrementing the counter. -/
def shouldCheckBackend (st : BackoffState) (now : Nat) : Bool × BackoffState :=
  let count := if st.checkBackendCount > MAX_BACKEND_CHECKS then 0 else st.checkBackendCount
  if now - st.lastCheckBackend > 2 ^ count then
    (true, ⟨count + 1, now⟩)
  else
    (false, ⟨count, st.lastCheckBackend⟩)

/-- True when the `Limiter.limiter` property returns the primary storage
(`self._limiter`) rather than the in-memory fallback. -/
def limiterUsesPrimary (st : LimiterState) : Bool :=
  !(st.storageDead && st.inMemoryFallbackEnabled)

/-- `combined_defaults` of `_check_request_limit`:
`all(not limit.override_defaults for limit in route_limits)`. -/
def combinedDefaults (routeLimits : List Limit) : Bool :=
  routeLimits.all (fun l => !l.overrideDefaults)

/-- The dynamic-limit gathering of `_check_request_limit`: each group is
evaluated with the request; a group raising `ValueError` is logged and
contributes nothing. -/
def gatherDynamic (st : LimiterState) (name : String) (request : Request) :
    List Limit :=
  ((assocGet st.dynamicRouteLimits name).getD []).foldl
    (fun out g =>
      match g request with
      | some ls => out ++ ls
      | none => out) []

/-- `endpoint_func_name`: the qualified name of the endpoint function, or ""
when no function was passed. -/
def endpointName (endpointFunc : Option String) : String :=
  endpointFunc.getD ""

/-- `_endpoint_key`: the request path under key_style "url", else the
qualified function name. -/
def endpointKeyOf (st : LimiterState) (request : Request) (name : String) : String :=
  if st.keyStyleUrl then request.path else name

/-- The early-return guard of `_check_request_limit` (lines 513-522): empty
endpoint key, limiter disabled, exempt route, or any request filter firing. -/
def earlyReturn (st : LimiterState) (request : Request) (endpointFunc : Option String) :
    Bool :=
  let name := endpointName endpointFunc
  let epKey := endpointKeyOf st request name
  epKey = "" || !st.enabled || st.exemptRoutes.contains name || st.requestFilters.any id

/-- The degraded-state block of `_check_request_limit` (lines 546-555):
when the storage is marked dead and a fallback limiter exists, a middleware
call for an operation marked for limiting falls through with no limits
chosen; otherwise a backoff-gated probe may recover the primary storage
(resetting the backoff counter), and failing that the fallback quota list is
selected.  Returns the updated limiter state and the chosen `all_limits`. -/
def degradedStep (st : LimiterState) (inMiddleware : Bool) (name : String)
    (now : Nat) (probeOk : Bool) : LimiterState × List Limit :=
  if st.storageDead && st.fallbackLimiterPresent then
    if inMiddleware && st.markedForLimiting.contains name then
      (st, [])
    else
      let fired := shouldCheckBackend ⟨st.checkBackendCount, st.lastCheckBackend⟩ now
      let st1 := { st with
        checkBackendCount := fired.snd.checkBackendCount
        lastCheckBackend := fired.snd.lastCheckBackend }
      if fired.fst && probeOk then
        ({ st1 with storageDead := false, checkBackendCount := 0 }, [])
      else
        (st1, st.inMemoryFallback.flatten)
  else
    (st, [])

/-- The quota-list assembly of `_check_request_limit` (lines 556-575), used
when the degraded block chose no limits: application-wide limits on the
middleware path, plus the operation's own limits, plus the process-wide
defaults when the route bound nothing (outside a marked middleware call) or
when no route limit overrides the defaults. -/
def assembleLimits (st : LimiterState) (inMiddleware : Bool) (name : String)
    (routeLimits : List Limit) : List Limit :=
  let base := (if inMiddleware then st.applicationLimits.flatten else []) ++ routeLimits
  if (routeLimits.isEmpty && !(inMiddleware && st.markedForLimiting.contains name))
      || combinedDefaults routeLimits then
    base ++ st.defaultLimits.flatten
  else
    base

/-- The `limits`/`dynamic_limits` gathering of `_check_request_limit`
(lines 523-542): the operation's own static and dynamic limits, gathered
only outside the middleware path. -/
def routeGather (st : LimiterState) (inMiddleware : Bool) (name : String)
    (request : Request) : List Limit :=
  (if inMiddleware then [] else (assocGet st.routeLimits name).getD []) ++
    (if inMiddleware then [] else gatherDynamic st name request)

/-- The complete `all_limits` selection of `_check_request_limit`: the limits
chosen by the degraded-state block when it chose any, otherwise the
assembled application/route/default limits. -/
def chosenLimits (st : LimiterState) (request : Request)
    (endpointFunc : Option String) (inMiddleware : Bool) (now : Nat)
    (probeOk : Bool) : List Limit :=
  let name := endpointName endpointFunc
  let stepped := degradedStep st inMiddleware name now probeOk
  if stepped.snd.isEmpty then
    assembleLimits stepped.fst inMiddleware name (routeGather st inMiddleware name request)
  else
    stepped.snd

/-- Outcome of the `try` body of one `_check_request_limit` invocation,
before its `except` clause runs.  Each constructor carries the limiter state
as left by the body; `ok`/`limitExceeded` carry the `all_limits` that were
passed to `_evaluate_limits` and the assigned `view_rate_limit`. -/
inductive AttemptOut where
  | earlyPass (st : LimiterState)
  | ok (st : LimiterState) (evaluated : List Limit)
      (view : Option (RateLimitItem × List String))
  | limitExceeded (st : LimiterState) (evaluated : List Limit) (failed : Limit)
      (view : Option (RateLimitItem × List String))
  | storageError (st : LimiterState)

/-- The `_evaluate_limits` call of `_check_request_limit` together with the
store selection of the `Limiter.limiter` property: counters live in the
primary store unless the storage is dead and the fallback is enabled.
`primaryFails` models counter-store calls against the primary storage
raising `StorageError`. -/
def attemptEvaluate (st1 : LimiterState) (request : Request) (epKey : String)
    (allLimits : List Limit) (primaryFails : Bool) : AttemptOut :=
  let usePrimary := limiterUsesPrimary st1
  let store := if usePrimary then st1.primaryStore else st1.fallbackStore
  let r := evaluateLimits st1.keyPref request epKey (usePrimary && primaryFails)
    store allLimits
  if r.storageFailed then
    .storageError st1
  else
    let st2 := if usePrimary then { st1 with primaryStore := r.store }
      else { st1 with fallbackStore := r.store }
    match r.failedLimit with
    | some fl => .limitExceeded st2 allLimits fl r.viewRateLimit
    | none => .ok st2 allLimits r.viewRateLimit

/-- One invocation of `_check_request_limit` up to (and excluding) its
`except` clause (extension.py lines 497-577).  `now` supplies
`time.monotonic()` and `probeOk` the result of `self._storage.check()`
(which never raises). -/
def checkAttempt (st : LimiterState) (request : Request)
    (endpointFunc : Option String) (inMiddleware : Bool) (now : Nat)
    (probeOk : Bool) (primaryFails : Bool) : AttemptOut :=
  if earlyReturn st request endpointFunc then
    .earlyPass st
  else
    attemptEvaluate
      (degradedStep st inMiddleware (endpointName endpointFunc) now probeOk).fst
      request (endpointKeyOf st request (endpointName endpointFunc))
      (chosenLimits st request endpointFunc inMiddleware now probeOk) primaryFails

/-- What a `_check_request_limit` call raised, if anything. -/
inductive CheckRaise where
  | rateLimitExceeded (failed : Limit)
  | storageError

/-- Result of a complete `_check_request_limit` call: the propagated
exception (if any), the `all_limits` that reached `_evaluate_limits` (none
when the call returned early or died before evaluating), the recorded
`view_rate_limit`, and the final limiter state. -/
structure CheckResult where
  raised : Option CheckRaise
  evaluated : Option (List Limit)
  view : Option (RateLimitItem × List String)
  state : LimiterState

/-- The quota items of the evaluated limits, for statements that compare
quota sets. -/
def CheckResult.evaluatedItems (r : CheckResult) : Option (List RateLimitItem) :=
  r.evaluated.map (List.map Limit.limit)

/-- `_check_request_limit` with its `except` clause (lines 578-591), fuel
bounded.  On a `StorageError` with the in-memory fallback enabled and the
storage not yet marked dead, the storage is marked dead and the whole call
repeats; otherwise the error is swallowed or re-raised per `swallow_errors`.
The recursion depth is at most 4: a retry always enters with
`storageDead = true`; from a dead state a further retry needs a successful
probe followed by a primary failure, and a fired probe sets the last-check
time to `now`, after which the probe gate `now - last > 2 ^ c` can no longer
fire, so the next retry evaluates against the fallback store and cannot
fail.  The fuel-exhausted branch is therefore unreachable. -/
def checkRequestLimitGo : Nat → LimiterState → Request → Option String → Bool →
    Nat → Bool → Bool → CheckResult
  | 0, st, _, _, _, _, _, _ => ⟨some .storageError, none, none, st⟩
  | fuel + 1, st, request, endpointFunc, inMiddleware, now, probeOk, primaryFails =>
    match checkAttempt st request endpointFunc inMiddleware now probeOk primaryFails with
    | .earlyPass st1 => ⟨none, none, none, st1⟩
    | .ok st1 ev v => ⟨none, some ev, v, st1⟩
    | .limitExceeded st1 ev fl v => ⟨some (.rateLimitExceeded fl), some ev, v, st1⟩
    | .storageError st1 =>
      if st1.inMemoryFallbackEnabled && !st1.storageDead then
        checkRequestLimitGo fuel { st1 with storageDead := true } request endpointFunc
          inMiddleware now probeOk primaryFails
      else if st1.swallowErrors then ⟨none, none, none, st1⟩
      else ⟨some .storageError, none, none, st1⟩

/-- `Limiter._check_request_limit`. -/
def checkRequestLimit (st : LimiterState) (request : Request)
    (endpointFunc : Option String) (inMiddleware : Bool) (now : Nat)
    (probeOk : Bool) (primaryFails : Bool) : CheckResult :=
  checkRequestLimitGo 4 st request endpointFunc inMiddleware now probeOk primaryFails

/-- Result of `_inject_headers`: whether the original exception was
re-raised, whether the rate-limit headers were written onto the response,
and the limiter state afterwards. -/
structure InjectResult where
  raised : Bool
  headersWritten : Bool
  state : LimiterState

/-- `Limiter._inject_headers` (extension.py lines 595-642), fuel bounded;
the recursion depth is at most 2 because the recursive call enters with
`storageDead = true`, falsifying its own retry guard.  `statsFails` models
`get_window_stats` raising against the primary storage.  Header contents are
not modelled (they read window statistics whose values no claim concerns);
`headersWritten` records that the `try` body completed.  Note the source's
`except` clause tests the fallback quota list (`self._in_memory_fallback`,
truthy when non-empty), not the enabled flag, and after a successful
fallback retry it still consults `swallow_errors` on the original error. -/
def injectHeadersGo : Nat → LimiterState →
    Option (RateLimitItem × List String) → Bool → InjectResult
  | 0, st, _, _ => ⟨true, false, st⟩
  | fuel + 1, st, currentLimit, statsFails =>
    if st.enabled && st.headersEnabled && currentLimit.isSome then
      if limiterUsesPrimary st && statsFails then
        if !st.inMemoryFallback.isEmpty && !st.storageDead then
          let inner := injectHeadersGo fuel { st with storageDead := true }
            currentLimit statsFails
          if inner.raised then inner
          else if st.swallowErrors then ⟨false, inner.headersWritten, inner.state⟩
          else ⟨true, inner.headersWritten, inner.state⟩
        else if st.swallowErrors then ⟨false, false, st⟩
        else ⟨true, false, st⟩
      else ⟨false, true, st⟩
    else ⟨false, false, st⟩

/-- `Limiter._inject_headers`. -/
def injectHeaders (st : LimiterState) (currentLimit : Option (RateLimitItem × List String))
    (statsFails : Bool) : InjectResult :=
  injectHeadersGo 2 st currentLimit statsFails

/-- `middleware.py _should_exempt`: pass through when no route handler
matched, the route is exempt, or the route has an entry in the static
`_route_limits` registry (the decorator handles it). -/
def shouldExempt (st : LimiterState) (handler : Option String) : Bool :=
  match handler with
  | none => true
  | some name =>
    st.exemptRoutes.contains name || (assocGet st.routeLimits name).isSome

/-- What the middleware produced for a request. -/
inductive MwOutcome where
  | passThrough
  | errorResponse (statusCode : Nat)
  | handlerUnavailable
deriving DecidableEq

/-- Result of the middleware's rate-limit step: its outcome, whether headers
will be injected on the way out, the request's `_rate_limiting_complete`
flag afterwards, and the limiter state. -/
structure AdapterOut where
  outcome : MwOutcome
  shouldInjectHeaders : Bool
  flag : Bool
  state : LimiterState

/-- `middleware.py check_limits` (lines 55-77): when auto-check is on and
the request's `_rate_limiting_complete` flag is unset, run the middleware
check (`in_middleware=True`).  A raised `RateLimitExceeded` is turned into
the 429 handler response; a propagated storage error reaches the default
handler with a foreign exception (modelled as `handlerUnavailable`).  The
flag is read but never written here. -/
def checkLimitsMw (st : LimiterState) (request : Request) (flag : Bool)
    (handler : Option String) (now : Nat) (probeOk : Bool) (primaryFails : Bool) :
    AdapterOut :=
  if st.autoCheck && !flag then
    let r := checkRequestLimit st request handler true now probeOk primaryFails
    match r.raised with
    | some (.rateLimitExceeded fl) =>
      ⟨.errorResponse (mkRateLimitExceeded fl).statusCode, false, flag, r.state⟩
    | some .storageError => ⟨.handlerUnavailable, false, flag, r.state⟩
    | none => ⟨.passThrough, true, flag, r.state⟩
  else
    ⟨.passThrough, false, flag, st⟩

/-- `middleware.py LimiterMiddleware.dispatch` up to `call_next`: pass the
request through untouched when the limiter is disabled or `_should_exempt`
holds, else delegate to `check_limits`. -/
def middlewareDispatch (st : LimiterState) (request : Request) (flag : Bool)
    (handler : Option String) (now : Nat) (probeOk : Bool) (primaryFails : Bool) :
    AdapterOut :=
  if !st.enabled then ⟨.passThrough, false, flag, st⟩
  else if shouldExempt st handler then ⟨.passThrough, false, flag, st⟩
  else checkLimitsMw st request flag handler now probeOk primaryFails

/-- Result of the decorator wrapper's rate-limit step: the exception
propagating out of the wrapper (if any), the request's
`_rate_limiting_complete` flag afterwards, and the limiter state. -/
structure DecoratorOut where
  raised : Option CheckRaise
  flag : Bool
  state : LimiterState

/-- The rate-limiting prologue of `async_wrapper` inside
`Limiter._limit_decorator` (extension.py lines 781-786): when the limiter is
enabled, auto-check is on and the request's flag is unset, run the
per-operation check (`in_middleware=False`) and then set the flag; a raised
exception propagates before the flag assignment. -/
def decoratorWrapperCheck (st : LimiterState) (request : Request) (flag : Bool)
    (funcName : String) (now : Nat) (probeOk : Bool) (primaryFails : Bool) :
    DecoratorOut :=
  if st.enabled then
    if st.autoCheck && !flag then
      let r := checkRequestLimit st request (some funcName) false now probeOk primaryFails
      match r.raised with
      | some e => ⟨some e, flag, r.state⟩
      | none => ⟨none, true, r.state⟩
    else ⟨none, flag, st⟩
  else ⟨none, flag, st⟩

/-- Modelled from the spec (section 4.1): seconds per window label.  The
source delegates quota parsing to the external limits library. -/
def windowSeconds : String → Option Nat
  | "second" => some 1
  | "minute" => some 60
  | "hour" => some 3600
  | "day" => some 86400
  | "month" => some 2592000
  | "year" => some 31536000
  | _ => none

/-- Split a character list at every separator accepted by `p` (the
separators are dropped; adjacent separators yield empty groups). -/
def splitChars (p : Char → Bool) : List Char → List (List Char)
  | [] => [[]]
  | c :: rest =>
    let r := splitChars p rest
    if p c then [] :: r
    else
      match r with
      | [] => [[c]]
      | g :: gs => (c :: g) :: gs

def dropSpaces : List Char → List Char
  | [] => []
  | c :: rest => if c = ' ' then dropSpaces rest else c :: rest

/-- Strip leading and trailing spaces. -/
def trimChars (cs : List Char) : List Char :=
  ((dropSpaces cs.reverse).reverse |> dropSpaces)

def charDigit (c : Char) : Option Nat :=
  if 48 ≤ c.toNat ∧ c.toNat ≤ 57 then some (c.toNat - 48) else none

/-- A non-empty run of decimal digits, as a number. -/
def digitsVal (cs : List Char) : Option Nat :=
  if cs.isEmpty then none
  else
    cs.foldl
      (fun acc c =>
        match acc, charDigit c with
        | some n, some d => some (n * 10 + d)
        | _, _ => none) (some 0)

/-- Modelled from the spec (sections 4.1 and 6): parse one quota expression
`<amount> (per|/) <unit>`, yielding `none` on malformed input (the library
raises `ValueError`). -/
def parseSingleChars (cs0 : List Char) : Option RateLimitItem :=
  let cs := trimChars cs0
  let tokens :=
    match splitChars (fun c => c = '/') cs with
    | [a, u] => some (trimChars a, trimChars u)
    | _ =>
      match (splitChars (fun c => c = ' ') cs).filter (fun w => !w.isEmpty) with
      | [a, p, u] => if p = ['p', 'e', 'r'] then some (a, u) else none
      | _ => none
  match tokens with
  | none => none
  | some (a, u) =>
    match digitsVal a, windowSeconds (String.mk u) with
    | some amount, some secs =>
      if amount > 0 then some ⟨amount, 1, secs⟩ else none
    | _, _ => none

/-- Modelled from the spec (sections 4.1 and 6): parse a delimited list of
quota expressions; any malformed element fails the whole parse (the library
raises `ValueError`, which `LimitGroup.__iter__` propagates). -/
def parse_many (s : String) : Option (List RateLimitItem) :=
  (splitChars (fun c => c = ',' || c = ';') s.toList).foldr
    (fun part out =>
      match parseSingleChars part, out with
      | some it, some items => some (it :: items)
      | _, _ => none) (some [])

/-- Append `v` to the entry of `name`, creating it when absent
(`dict.setdefault(name, []).extend(v)`). -/
def assocExtend (xs : List (String × List Limit)) (name : String) (v : List Limit) :
    List (String × List Limit) :=
  match xs with
  | [] => [(name, v)]
  | (k, w) :: rest =>
    if k = name then (k, w ++ v) :: rest else (k, w) :: assocExtend rest name v

/-- The static-quota branch of `Limiter._limit_decorator` (extension.py
lines 715-766) for a string `limit_value`: expanding the `LimitGroup` may
raise `ValueError` on a malformed expression, which the source catches and
logs, leaving `static_limits` empty.  The route is then always marked for
limiting and its (possibly empty) static limits are appended.  Afterwards
the decorated function's signature is inspected: with no `request` or
`websocket` parameter an `Exception` is raised (after registration).
`shared` selects the shared-scope form (`Limiter.shared_limit`). -/
def registerStaticRoute (st : LimiterState) (name : String) (limitValue : String)
    (keyFunc : Request → String) (shared : Bool) (scope : Option String)
    (perMethod : Bool) (methods : Option (List String))
    (errorMessage : Option String) (exemptWhen : Option (Request → Bool))
    (cost : Request → Nat) (overrideDefaults : Bool) (hasRequestParam : Bool) :
    Except String LimiterState :=
  let scope1 := if shared then scope else none
  let staticLimits :=
    match parse_many limitValue with
    | some items =>
      items.map (fun it =>
        Limit.mk it keyFunc scope1 perMethod (methods.map (List.map String.toLower))
          errorMessage exemptWhen cost overrideDefaults)
    | none => []
  let st1 := { st with
    markedForLimiting :=
      if st.markedForLimiting.contains name then st.markedForLimiting
      else st.markedForLimiting ++ [name]
    routeLimits := assocExtend st.routeLimits name staticLimits }
  if hasRequestParam then .ok st1
  else .error "No request or websocket argument on function"

/-- Test harness: run `_evaluate_limits` repeatedly against the same request
(healthy storage), returning the per-invocation admit decisions
(true = no `RateLimitExceeded`). -/
def runChecks (keyPref : String) (request : Request) (endpoint : String)
    (limits : List Limit) : Nat → Store → List Bool
  | 0, _ => []
  | n + 1, store =>
    let r := evaluateLimits keyPref request endpoint false store limits
    r.failedLimit.isNone :: runChecks keyPref request endpoint limits n r.store

/-! ### Helper lemmas -/

/-- The effective scope a limit binding resolves to inside
`_evaluate_limits`: the declared scope or the endpoint key, suffixed with
the HTTP method under `per_method`. -/
def Limit.effScope (l : Limit) (request : Request) (endpoint : String) : String :=
  let s0 := if l.scopeStr = "" then endpoint else l.scopeStr
  if l.perMethod then s0 ++ ":" ++ request.method else s0

/-- The storage-key arguments `_evaluate_limits` builds for a binding. -/
def limitArgs (keyPref : String) (l : Limit) (request : Request) (endpoint : String) :
    List String :=
  if keyPref = "" then [l.keyFunc request, l.effScope request endpoint]
  else [keyPref, l.keyFunc request, l.effScope request endpoint]

theorem Store.get_set_self (s : Store) (k : StoreKey) (v : Nat) :
    Store.get (Store.set s k v) k = v := by
  induction s with
  | nil => simp [Store.set, Store.get]
  | cons p rest ih =>
    obtain ⟨k2, w⟩ := p
    by_cases h : k2 = k
    · simp [Store.set, h, Store.get]
    · simp [Store.set, h, Store.get, ih]

/-- Evaluating a single non-exempt, method-matching binding with non-empty
key and scope: the bucket is charged and the request is admitted exactly
when the new total is within the quota amount. -/
theorem evalSingle (keyPref : String) (l : Limit) (request : Request)
    (endpoint : String) (s : Store)
    (hex : l.isExempt request = false) (hm : l.methodExcluded request = false)
    (hk : l.keyFunc request ≠ "") (hs : l.effScope request endpoint ≠ "") :
    evaluateLimits keyPref request endpoint false s [l] =
      ⟨false,
        if Store.get s ⟨limitArgs keyPref l request endpoint, l.limit⟩ + l.cost request
            ≤ l.limit.amount then none else some l,
        some (l.limit, limitArgs keyPref l request endpoint),
        Store.set s ⟨limitArgs keyPref l request endpoint, l.limit⟩
          (Store.get s ⟨limitArgs keyPref l request endpoint, l.limit⟩ + l.cost request),
        [(l.limit, limitArgs keyPref l request endpoint)]⟩ := by
  rw [evaluateLimits]
  rw [evalLimitsLoop]
  simp only [hex, hm, Bool.false_eq_true, if_false]
  rw [if_pos ⟨hk, by simpa [Limit.effScope] using hs⟩]
  simp only [Store.hit, limitArgs, Limit.effScope, headerUpd, Bool.false_eq_true, if_false]
  by_cases hle :
      Store.get s ⟨limitArgs keyPref l request endpoint, l.limit⟩ + l.cost request
        ≤ l.limit.amount
  · simp only [limitArgs, Limit.effScope] at hle
    simp [hle, evalLimitsLoop, limitArgs, Limit.effScope]
  · simp only [limitArgs, Limit.effScope] at hle
    simp [hle, limitArgs, Limit.effScope]

/-- Iterating single-binding evaluation with cost 1: the j-th invocation
(0-based) is admitted exactly when the starting counter plus j + 1 fits the
amount. -/
theorem runChecks_single (keyPref : String) (l : Limit) (request : Request)
    (endpoint : String)
    (hex : l.isExempt request = false) (hm : l.methodExcluded request = false)
    (hk : l.keyFunc request ≠ "") (hs : l.effScope request endpoint ≠ "")
    (hc : l.cost request = 1) :
    ∀ (n : Nat) (s : Store),
      runChecks keyPref request endpoint [l] n s =
        (List.range n).map (fun j =>
          decide (Store.get s ⟨limitArgs keyPref l request endpoint, l.limit⟩ + j + 1
            ≤ l.limit.amount)) := by
  intro n
  induction n with
  | zero => intro s; simp [runChecks]
  | succ m ih =>
    intro s
    rw [runChecks, evalSingle keyPref l request endpoint s hex hm hk hs, hc]
    rw [List.range_succ_eq_map]
    simp only [List.map_cons, List.map_map]
    congr 1
    · by_cases hle :
          Store.get s ⟨limitArgs keyPref l request endpoint, l.limit⟩ + 1 ≤ l.limit.amount
      · simp [hle]
      · simp [hle]
    · rw [ih]
      rw [Store.get_set_self]
      apply List.map_congr_left
      intro j _
      simp only [Function.comp_apply, decide_eq_decide]
      omega

/-- C1: for every quota of amount N, iterated checks sharing one resolved
key are admitted exactly on the first N invocations — the j-th invocation
(1-based, so j = i here with i 0-based) is admitted iff `j + 1 ≤ N` — and a
denial raises `RateLimitExceeded`, whose status code is 429. -/
theorem quota_first_n_admitted (keyPref : String) (l : Limit) (request : Request)
    (endpoint : String) (n : Nat)
    (hex : l.isExempt request = false) (hm : l.methodExcluded request = false)
    (hk : l.keyFunc request ≠ "") (hs : l.effScope request endpoint ≠ "")
    (hc : l.cost request = 1) :
    runChecks keyPref request endpoint [l] n [] =
      (List.range n).map (fun j => decide (j + 1 ≤ l.limit.amount))
    ∧ (mkRateLimitExceeded l).statusCode = 429 := by
  constructor
  · rw [runChecks_single keyPref l request endpoint hex hm hk hs hc n []]
    apply List.map_congr_left
    intro j _
    simp [Store.get]
  · rfl

/-- A demonstration request: a client at 203.0.113.7 issuing GET /t1 with no
forwarding header. -/
def demoReq : Request :=
  { headers := [], client := some ⟨"203.0.113.7"⟩, method := "GET", path := "/t1" }

/-- A "5/minute" binding keyed by `get_ipaddr`, as produced by
`limiter.limit("5/minute")`. -/
def demoLimit5 : Limit :=
  { limit := ⟨5, 1, 60⟩
    keyFunc := get_ipaddr
    scope := none
    perMethod := false
    methods := none
    errorMessage := none
    exemptWhen := none
    cost := fun _ => 1
    overrideDefaults := true }

/-- Witness for C1: quota "5/minute", 10 sequential requests from one
identity — requests 1-5 admitted, 6-10 denied, denials carrying 429. -/
theorem quota_first_n_admitted_witness :
    runChecks "" demoReq "/t1" [demoLimit5] 10 [] =
      [true, true, true, true, true, false, false, false, false, false]
    ∧ (mkRateLimitExceeded demoLimit5).statusCode = 429 := by
  have h := quota_first_n_admitted "" demoLimit5 demoReq "/t1" 10
    (by decide) (by decide) (by decide) (by decide) rfl
  exact ⟨by rw [h.1]; rfl, h.2⟩

/-- C10: a request with no X_FORWARDED_FOR header and no usable client
address resolves to "127.0.0.1" under both key functions. -/
theorem key_functions_default_loopback (request : Request)
    (hf : assocGet request.headers "X_FORWARDED_FOR" = none)
    (hc : noClientAddr request = true) :
    get_ipaddr request = "127.0.0.1" ∧ get_remote_address request = "127.0.0.1" := by
  unfold get_ipaddr get_remote_address
  rw [hf]
  unfold noClientAddr at hc
  cases hcl : request.client with
  | none => simp
  | some c =>
    rw [hcl] at hc
    simp only [decide_eq_true_eq] at hc
    simp [hc]

/-- Witness for C10: a header-less request with no client object. -/
theorem key_functions_default_loopback_witness :
    get_ipaddr ⟨[("accept", "text/html")], none, "GET", "/"⟩ = "127.0.0.1"
    ∧ get_remote_address ⟨[("accept", "text/html")], none, "GET", "/"⟩ = "127.0.0.1" :=
  key_functions_default_loopback ⟨[("accept", "text/html")], none, "GET", "/"⟩
    (by decide) (by decide)

/-! ### Lemmas on the check pipeline -/

/-- With no storage failure injected, `_evaluate_limits` never reports one. -/
theorem evalLoop_no_storage_failure (keyPref : String) (request : Request)
    (endpoint : String) :
    ∀ (ls : List Limit) (store : Store) (lfh : Option (RateLimitItem × List String))
      (acc : List (RateLimitItem × List String)),
      (evalLimitsLoop keyPref request endpoint false store lfh acc ls).storageFailed
        = false := by
  intro ls
  induction ls with
  | nil => intro store lfh acc; rfl
  | cons lim rest ih =>
    intro store lfh acc
    simp only [evalLimitsLoop, Bool.false_eq_true, if_false]
    repeat' split
    all_goals first | rfl | exact ih _ _ _

theorem evaluate_no_storage_failure (keyPref : String) (request : Request)
    (endpoint : String) (store : Store) (limits : List Limit) :
    (evaluateLimits keyPref request endpoint false store limits).storageFailed = false :=
  evalLoop_no_storage_failure keyPref request endpoint limits store none []

/-- When no storage failure can reach the evaluation, the attempt ends in
`ok` or `limitExceeded`, both carrying exactly the chosen limit list. -/
theorem attemptEvaluate_no_failure (st1 : LimiterState) (request : Request)
    (epKey : String) (allLimits : List Limit) (primaryFails : Bool)
    (hfail : (limiterUsesPrimary st1 && primaryFails) = false) :
    (∃ st2 v, attemptEvaluate st1 request epKey allLimits primaryFails =
        .ok st2 allLimits v)
    ∨ (∃ st2 fl v, attemptEvaluate st1 request epKey allLimits primaryFails =
        .limitExceeded st2 allLimits fl v) := by
  unfold attemptEvaluate
  simp only [hfail, evaluate_no_storage_failure, Bool.false_eq_true, if_false]
  cases hfl : (evaluateLimits st1.keyPref request epKey false
      (if limiterUsesPrimary st1 then st1.primaryStore else st1.fallbackStore)
      allLimits).failedLimit with
  | none => exact Or.inl ⟨_, _, rfl⟩
  | some fl => exact Or.inr ⟨_, fl, _, rfl⟩

/-- `checkRequestLimit` unfolded one level (the fuel of 4 is definitional). -/
theorem checkRequestLimit_eq (st : LimiterState) (request : Request)
    (endpointFunc : Option String) (inMiddleware : Bool) (now : Nat)
    (probeOk : Bool) (primaryFails : Bool) :
    checkRequestLimit st request endpointFunc inMiddleware now probeOk primaryFails =
      match checkAttempt st request endpointFunc inMiddleware now probeOk primaryFails with
      | .earlyPass st1 => ⟨none, none, none, st1⟩
      | .ok st1 ev v => ⟨none, some ev, v, st1⟩
      | .limitExceeded st1 ev fl v => ⟨some (.rateLimitExceeded fl), some ev, v, st1⟩
      | .storageError st1 =>
        if st1.inMemoryFallbackEnabled && !st1.storageDead then
          checkRequestLimitGo 3 { st1 with storageDead := true } request endpointFunc
            inMiddleware now probeOk primaryFails
        else if st1.swallowErrors then ⟨none, none, none, st1⟩
        else ⟨some .storageError, none, none, st1⟩ := rfl

/-- Outside the early-return cases and with no storage failure able to reach
the evaluation, `_check_request_limit` evaluates exactly the chosen limit
list. -/
theorem checkRequestLimit_no_failure_evaluated (st : LimiterState) (request : Request)
    (endpointFunc : Option String) (inMiddleware : Bool) (now : Nat)
    (probeOk : Bool) (primaryFails : Bool)
    (hearly : earlyReturn st request endpointFunc = false)
    (hfail : (limiterUsesPrimary
        (degradedStep st inMiddleware (endpointName endpointFunc) now probeOk).fst
        && primaryFails) = false) :
    (checkRequestLimit st request endpointFunc inMiddleware now probeOk primaryFails).evaluated
      = some (chosenLimits st request endpointFunc inMiddleware now probeOk) := by
  have hca : checkAttempt st request endpointFunc inMiddleware now probeOk primaryFails =
      attemptEvaluate
        (degradedStep st inMiddleware (endpointName endpointFunc) now probeOk).fst
        request (endpointKeyOf st request (endpointName endpointFunc))
        (chosenLimits st request endpointFunc inMiddleware now probeOk) primaryFails := by
    unfold checkAttempt
    rw [if_neg (by simp [hearly])]
  rcases attemptEvaluate_no_failure
      (degradedStep st inMiddleware (endpointName endpointFunc) now probeOk).fst
      request (endpointKeyOf st request (endpointName endpointFunc))
      (chosenLimits st request endpointFunc inMiddleware now probeOk) primaryFails hfail with
    ⟨st2, v, h2⟩ | ⟨st2, fl, v, h2⟩ <;>
  · rw [checkRequestLimit_eq, hca, h2]

theorem degradedStep_healthy (st : LimiterState) (inMiddleware : Bool)
    (name : String) (now : Nat) (probeOk : Bool) (hdead : st.storageDead = false) :
    degradedStep st inMiddleware name now probeOk = (st, []) := by
  unfold degradedStep
  rw [hdead]
  simp

/-! ### C2: resolution of process-wide defaults on the per-operation path -/

/-- C2: on a per-operation check with healthy storage, the evaluated quota
set is the operation's own limits plus the process-wide defaults exactly
when no own binding overrides them: with no own bindings the defaults alone
are evaluated; with an overriding binding the defaults are suppressed
entirely; with only non-overriding bindings the defaults are appended. -/
theorem defaults_resolution_per_operation (st : LimiterState) (request : Request)
    (name : String) (now : Nat) (probeOk : Bool)
    (hearly : earlyReturn st request (some name) = false)
    (hdead : st.storageDead = false) :
    (routeGather st false name request = [] →
      (checkRequestLimit st request (some name) false now probeOk false).evaluated =
        some st.defaultLimits.flatten)
    ∧ ((∃ l ∈ routeGather st false name request, l.overrideDefaults = true) →
      (checkRequestLimit st request (some name) false now probeOk false).evaluated =
        some (routeGather st false name request))
    ∧ (combinedDefaults (routeGather st false name request) = true →
      (checkRequestLimit st request (some name) false now probeOk false).evaluated =
        some (routeGather st false name request ++ st.defaultLimits.flatten)) := by
  have hfail : (limiterUsesPrimary
      (degradedStep st false (endpointName (some name)) now probeOk).fst && false) = false :=
    Bool.and_false _
  have hev := checkRequestLimit_no_failure_evaluated st request (some name) false now
    probeOk false hearly hfail
  rw [chosenLimits, degradedStep_healthy st false (endpointName (some name)) now probeOk hdead]
    at hev
  simp only [endpointName, Option.getD_some, List.isEmpty_nil, if_true, assembleLimits,
    Bool.false_and, Bool.not_false, Bool.and_true, Bool.false_eq_true, if_false,
    List.nil_append] at hev
  refine ⟨?_, ?_, ?_⟩
  · intro hempty
    rw [hempty] at hev
    simpa [combinedDefaults] using hev
  · rintro ⟨l, hl, hov⟩
    have hne : routeGather st false name request ≠ [] := List.ne_nil_of_mem hl
    have hcd : combinedDefaults (routeGather st false name request) = false := by
      cases hcd : combinedDefaults (routeGather st false name request) with
      | false => rfl
      | true =>
        have := List.all_eq_true.mp hcd l hl
        rw [hov] at this
        simp at this
    have hie : (routeGather st false name request).isEmpty = false := by
      cases hh : (routeGather st false name request).isEmpty with
      | false => rfl
      | true => exact absurd (List.isEmpty_iff.mp hh) hne
    rw [hcd, hie] at hev
    simpa using hev
  · intro hcd
    rw [hcd] at hev
    simpa using hev

/-- A quota item used for default limits in witnesses: "10/minute". -/
def demoDefaultLimit : Limit :=
  { limit := ⟨10, 1, 60⟩
    keyFunc := get_ipaddr
    scope := none
    perMethod := false
    methods := none
    errorMessage := none
    exemptWhen := none
    cost := fun _ => 1
    overrideDefaults := false }

/-- A baseline healthy limiter with empty registries; witnesses derive their
scenarios from it. -/
def baseState : LimiterState :=
  { enabled := true
    headersEnabled := false
    autoCheck := true
    swallowErrors := false
    keyPref := ""
    keyStyleUrl := true
    inMemoryFallbackEnabled := false
    fallbackLimiterPresent := false
    storageDead := false
    checkBackendCount := 0
    lastCheckBackend := 0
    defaultLimits := []
    applicationLimits := []
    inMemoryFallback := []
    exemptRoutes := []
    requestFilters := []
    routeLimits := []
    dynamicRouteLimits := []
    markedForLimiting := []
    primaryStore := []
    fallbackStore := [] }

/-- Witness for C2: an operation with no bindings of its own evaluates
exactly the process-wide default quotas. -/
theorem defaults_resolution_per_operation_witness :
    (checkRequestLimit { baseState with defaultLimits := [[demoDefaultLimit]] } demoReq
        (some "routes.h") false 0 false false).evaluated =
      some ({ baseState with defaultLimits := [[demoDefaultLimit]] }
        : LimiterState).defaultLimits.flatten :=
  (defaults_resolution_per_operation { baseState with defaultLimits := [[demoDefaultLimit]] }
    demoReq "routes.h" 0 false (by decide) rfl).1 rfl

/-! ### C4: quota selection while DEGRADED -/

/-- C4 amended: while the storage is marked dead with the fallback limiter
configured, a check whose probe does not fire or does not succeed evaluates
exactly the operator-declared fallback quota list — provided the check is
not a middleware check of an operation marked for limiting and the fallback
list is non-empty (in those excluded cases the regular quota assembly runs
instead, against the fallback store). -/
theorem degraded_uses_fallback_quotas (st : LimiterState) (request : Request)
    (endpointFunc : Option String) (inMiddleware : Bool) (now : Nat) (probeOk : Bool)
    (primaryFails : Bool)
    (hearly : earlyReturn st request endpointFunc = false)
    (hdead : st.storageDead = true)
    (hpres : st.fallbackLimiterPresent = true)
    (henab : st.inMemoryFallbackEnabled = true)
    (hmk : (inMiddleware && st.markedForLimiting.contains (endpointName endpointFunc))
      = false)
    (hprobe : (shouldCheckBackend ⟨st.checkBackendCount, st.lastCheckBackend⟩ now).fst
        = false ∨ probeOk = false)
    (hne : st.inMemoryFallback.flatten ≠ []) :
    (checkRequestLimit st request endpointFunc inMiddleware now probeOk
        primaryFails).evaluated = some st.inMemoryFallback.flatten := by
  have hfp : ((shouldCheckBackend ⟨st.checkBackendCount, st.lastCheckBackend⟩ now).fst
      && probeOk) = false := by
    rcases hprobe with h | h <;> simp [h]
  have hstep : degradedStep st inMiddleware (endpointName endpointFunc) now probeOk =
      ({ st with
          checkBackendCount := (shouldCheckBackend
            ⟨st.checkBackendCount, st.lastCheckBackend⟩ now).snd.checkBackendCount
          lastCheckBackend := (shouldCheckBackend
            ⟨st.checkBackendCount, st.lastCheckBackend⟩ now).snd.lastCheckBackend },
        st.inMemoryFallback.flatten) := by
    unfold degradedStep
    rw [hdead, hpres, hmk]
    simp [hfp]
  have hfail : (limiterUsesPrimary
      (degradedStep st inMiddleware (endpointName endpointFunc) now probeOk).fst
      && primaryFails) = false := by
    rw [hstep]
    simp [limiterUsesPrimary, hdead, henab]
  have hie : st.inMemoryFallback.flatten.isEmpty = false := by
    cases hh : st.inMemoryFallback.flatten.isEmpty with
    | false => rfl
    | true => exact absurd (List.isEmpty_iff.mp hh) hne
  have hev := checkRequestLimit_no_failure_evaluated st request endpointFunc inMiddleware
    now probeOk primaryFails hearly hfail
  rw [chosenLimits] at hev
  rw [hstep] at hev
  simp only [hie, Bool.false_eq_true, if_false] at hev
  exact hev

/-- A fallback quota binding "3/minute" for scenarios. -/
def demoFallbackLimit : Limit :=
  { limit := ⟨3, 1, 60⟩
    keyFunc := get_ipaddr
    scope := none
    perMethod := false
    methods := none
    errorMessage := none
    exemptWhen := none
    cost := fun _ => 1
    overrideDefaults := false }

/-- An application-wide binding "9/hour" with shared scope "global" as built
by `Limiter.__init__` for `application_limits`. -/
def demoAppLimit : Limit :=
  { limit := ⟨9, 1, 3600⟩
    keyFunc := get_ipaddr
    scope := some "global"
    perMethod := false
    methods := none
    errorMessage := none
    exemptWhen := none
    cost := fun _ => 1
    overrideDefaults := false }

/-- A degraded limiter with a fallback list, an application-wide quota, and
the operation "routes.m" marked for limiting. -/
def degradedMarkedState : LimiterState :=
  { baseState with
    storageDead := true
    fallbackLimiterPresent := true
    inMemoryFallbackEnabled := true
    inMemoryFallback := [[demoFallbackLimit]]
    applicationLimits := [[demoAppLimit]]
    markedForLimiting := ["routes.m"] }

/-- C4 counterexample: a DEGRADED middleware check of an operation marked
for limiting does not evaluate the fallback quotas — it evaluates the
application-wide quota instead (the "pass" branch of the degraded block
falls through to the normal assembly). -/
theorem degraded_marked_middleware_counterexample :
    (checkRequestLimit degradedMarkedState demoReq (some "routes.m") true 0 true
        false).evaluatedItems = some [⟨9, 1, 3600⟩]
    ∧ degradedMarkedState.inMemoryFallback.flatten.map Limit.limit = [⟨3, 1, 60⟩]
    ∧ ([⟨9, 1, 3600⟩] : List RateLimitItem) ≠ [⟨3, 1, 60⟩] :=
  ⟨rfl, rfl, by decide⟩

/-- Witness for C4: the same degraded limiter on the per-operation path
(probe gated off) evaluates exactly the fallback quota list. -/
theorem degraded_uses_fallback_quotas_witness :
    (checkRequestLimit degradedMarkedState demoReq (some "routes.m") false 0 true
        false).evaluated = some degradedMarkedState.inMemoryFallback.flatten :=
  degraded_uses_fallback_quotas degradedMarkedState demoReq (some "routes.m") false 0 true
    false (by decide) rfl rfl rfl rfl (Or.inl (by decide))
    (by simp [degradedMarkedState, baseState])

/-! ### C7: deterministic error handling without a usable fallback -/

/-- `injectHeaders` unfolded one level (the fuel of 2 is definitional). -/
theorem injectHeaders_eq (st : LimiterState)
    (currentLimit : Option (RateLimitItem × List String)) (statsFails : Bool) :
    injectHeaders st currentLimit statsFails =
      if st.enabled && st.headersEnabled && currentLimit.isSome then
        if limiterUsesPrimary st && statsFails then
          if !st.inMemoryFallback.isEmpty && !st.storageDead then
            let inner := injectHeadersGo 1 { st with storageDead := true }
              currentLimit statsFails
            if inner.raised then inner
            else if st.swallowErrors then ⟨false, inner.headersWritten, inner.state⟩
            else ⟨true, inner.headersWritten, inner.state⟩
          else if st.swallowErrors then ⟨false, false, st⟩
          else ⟨true, false, st⟩
        else ⟨false, true, st⟩
      else ⟨false, false, st⟩ := rfl

/-- C7: when a storage error occurs during a check or during header
injection and no usable fallback exists, the outcome is decided by
`swallow_errors` alone: the check swallows (request proceeds unmetered) or
re-raises, and header injection is skipped silently or re-raises. -/
theorem swallow_errors_deterministic (st st1 : LimiterState) (request : Request)
    (endpointFunc : Option String) (inMiddleware : Bool) (now : Nat) (probeOk : Bool)
    (currentLimit : Option (RateLimitItem × List String))
    (herr : checkAttempt st request endpointFunc inMiddleware now probeOk true
      = .storageError st1)
    (hnf : st1.inMemoryFallbackEnabled = false ∨ st1.storageDead = true)
    (hdoHeaders : (st.enabled && st.headersEnabled && currentLimit.isSome) = true)
    (hprim : limiterUsesPrimary st = true)
    (hnfl : st.inMemoryFallback.isEmpty = true ∨ st.storageDead = true) :
    ((checkRequestLimit st request endpointFunc inMiddleware now probeOk true).raised =
        if st1.swallowErrors then none else some CheckRaise.storageError)
    ∧ (injectHeaders st currentLimit true).raised = !st.swallowErrors
    ∧ (injectHeaders st currentLimit true).headersWritten = false := by
  have hguard : (st1.inMemoryFallbackEnabled && !st1.storageDead) = false := by
    rcases hnf with h | h <;> simp [h]
  have hguard2 : (!st.inMemoryFallback.isEmpty && !st.storageDead) = false := by
    rcases hnfl with h | h <;> simp [h]
  refine ⟨?_, ?_, ?_⟩
  · rw [checkRequestLimit_eq, herr]
    simp only [hguard, Bool.false_eq_true, if_false]
    by_cases hsw : st1.swallowErrors <;> simp [hsw]
  · rw [injectHeaders_eq]
    simp only [hdoHeaders, hprim, Bool.true_and, if_true, hguard2, Bool.false_eq_true,
      if_false]
    by_cases hsw : st.swallowErrors <;> simp [hsw]
  · rw [injectHeaders_eq]
    simp only [hdoHeaders, hprim, Bool.true_and, if_true, hguard2, Bool.false_eq_true,
      if_false]
    by_cases hsw : st.swallowErrors <;> simp [hsw]

/-- A healthy limiter with headers enabled and a static "5/minute" binding
on "routes.f"; no fallback of any kind is configured. -/
def storageErrorState : LimiterState :=
  { baseState with
    headersEnabled := true
    routeLimits := [("routes.f", [demoLimit5])] }

/-- The same limiter with `swallow_errors` set. -/
def storageErrorSwallowState : LimiterState :=
  { storageErrorState with swallowErrors := true }

/-- Witness for C7: with the primary storage failing and no fallback, the
swallowing limiter admits the request unmetered and writes no headers,
while the non-swallowing limiter re-raises in both places. -/
theorem swallow_errors_deterministic_witness :
    (checkRequestLimit storageErrorSwallowState demoReq (some "routes.f") false 0 false
        true).raised = none
    ∧ (checkRequestLimit storageErrorState demoReq (some "routes.f") false 0 false
        true).raised = some CheckRaise.storageError
    ∧ (injectHeaders storageErrorSwallowState (some (⟨5, 1, 60⟩, ["ip", "/t1"]))
        true).raised = false
    ∧ (injectHeaders storageErrorSwallowState (some (⟨5, 1, 60⟩, ["ip", "/t1"]))
        true).headersWritten = false
    ∧ (injectHeaders storageErrorState (some (⟨5, 1, 60⟩, ["ip", "/t1"]))
        true).raised = true := by
  have h1 := swallow_errors_deterministic storageErrorSwallowState
    storageErrorSwallowState demoReq (some "routes.f") false 0 false
    (some (⟨5, 1, 60⟩, ["ip", "/t1"])) rfl (Or.inl rfl) rfl rfl (Or.inl rfl)
  have h2 := swallow_errors_deterministic storageErrorState storageErrorState demoReq
    (some "routes.f") false 0 false (some (⟨5, 1, 60⟩, ["ip", "/t1"])) rfl
    (Or.inl rfl) rfl rfl (Or.inl rfl)
  exact ⟨h1.1, h2.1, h1.2.1, h1.2.2, h2.2.1⟩

/-! ### C5: the DEGRADED recovery backoff -/

/-- The exponent actually gating the next probe: the backoff counter after
its greater-than-`MAX_BACKEND_CHECKS` reset. -/
def effectiveExponent (st : BackoffState) : Nat :=
  if st.checkBackendCount > MAX_BACKEND_CHECKS then 0 else st.checkBackendCount

/-- The earliest instant at which the next probe can fire. -/
def nextProbeTime (st : BackoffState) : Nat :=
  st.lastCheckBackend + 2 ^ effectiveExponent st + 1

/-- The backoff trajectory obtained by probing at the earliest admissible
instants, starting from a fresh counter. -/
def probeSeq : Nat → BackoffState
  | 0 => ⟨0, 0⟩
  | k + 1 => (shouldCheckBackend (probeSeq k) (nextProbeTime (probeSeq k))).snd

theorem shouldCheckBackend_spec (st : BackoffState) (now : Nat) :
    shouldCheckBackend st now =
      if now - st.lastCheckBackend > 2 ^ effectiveExponent st then
        (true, ⟨effectiveExponent st + 1, now⟩)
      else (false, ⟨effectiveExponent st, st.lastCheckBackend⟩) := rfl

theorem shouldCheckBackend_fires (st : BackoffState) (now : Nat)
    (h : (shouldCheckBackend st now).fst = true) :
    now - st.lastCheckBackend > 2 ^ effectiveExponent st := by
  rw [shouldCheckBackend_spec] at h
  by_cases hg : now - st.lastCheckBackend > 2 ^ effectiveExponent st
  · exact hg
  · rw [if_neg hg] at h
    simp at h

theorem shouldCheckBackend_next (st : BackoffState) :
    shouldCheckBackend st (nextProbeTime st) =
      (true, ⟨effectiveExponent st + 1, nextProbeTime st⟩) := by
  rw [shouldCheckBackend_spec]
  rw [if_pos (by unfold nextProbeTime; omega)]

theorem probeSeq_count (k : Nat) :
    (probeSeq (k + 1)).checkBackendCount = k % 6 + 1 := by
  induction k with
  | zero => rfl
  | succ m ih =>
    rw [probeSeq, shouldCheckBackend_next]
    show effectiveExponent (probeSeq (m + 1)) + 1 = (m + 1) % 6 + 1
    rw [effectiveExponent, ih]
    rcases Nat.lt_or_ge (m % 6) 5 with h | h
    · rw [if_neg (by simp only [MAX_BACKEND_CHECKS]; omega)]
      omega
    · have h6 : m % 6 < 6 := Nat.mod_lt _ (by omega)
      rw [if_pos (by simp only [MAX_BACKEND_CHECKS]; omega)]
      omega

theorem probeSeq_eff (k : Nat) : effectiveExponent (probeSeq k) = k % 6 := by
  cases k with
  | zero => rfl
  | succ m =>
    rw [effectiveExponent, probeSeq_count m]
    rcases Nat.lt_or_ge (m % 6) 5 with h | h
    · rw [if_neg (by simp only [MAX_BACKEND_CHECKS]; omega)]
      omega
    · have h6 : m % 6 < 6 := Nat.mod_lt _ (by omega)
      rw [if_pos (by simp only [MAX_BACKEND_CHECKS]; omega)]
      omega

/-- C5 amended: a probe fires only once more than `2 ^ e` seconds elapsed,
where the exponent `e` is the backoff counter after its reset rule — the
counter is reset to 0 once it exceeds 5, so along consecutive probes the
gates cycle through 1, 2, 4, 8, 16, 32 seconds and then restart at 1 rather
than staying capped at 32 (`probeSeq` exhibits exponent `k % 6` at the k-th
probe); a successful probe inside the degraded block resets the counter to
0 and revives the primary storage. -/
theorem backoff_gate_cycles :
    (∀ (st : BackoffState) (now : Nat), (shouldCheckBackend st now).fst = true →
      now - st.lastCheckBackend > 2 ^ effectiveExponent st)
    ∧ (∀ k : Nat,
        (shouldCheckBackend (probeSeq k) (nextProbeTime (probeSeq k))).fst = true
        ∧ effectiveExponent (probeSeq k) = k % 6)
    ∧ (∀ (st : LimiterState) (inMiddleware : Bool) (name : String) (now : Nat),
        st.storageDead = true → st.fallbackLimiterPresent = true →
        (inMiddleware && st.markedForLimiting.contains name) = false →
        (shouldCheckBackend ⟨st.checkBackendCount, st.lastCheckBackend⟩ now).fst = true →
        (degradedStep st inMiddleware name now true).fst.checkBackendCount = 0
        ∧ (degradedStep st inMiddleware name now true).fst.storageDead = false) := by
  refine ⟨shouldCheckBackend_fires, ?_, ?_⟩
  · intro k
    exact ⟨by rw [shouldCheckBackend_next], probeSeq_eff k⟩
  · intro st inMiddleware name now hdead hpres hmk hfired
    unfold degradedStep
    rw [hdead, hpres, hmk]
    simp [hfired]

/-- Run `_should_check_backend` at the given monotonic instants, collecting
whether each call fired a probe. -/
def runBackoff (st : BackoffState) : List Nat → List Bool × BackoffState
  | [] => ([], st)
  | t :: rest =>
    let r := shouldCheckBackend st t
    let out := runBackoff r.snd rest
    (r.fst :: out.fst, out.snd)

/-- C5 counterexample: from a fresh counter, six probes fire at instants
2, 5, 10, 19, 36, 69, leaving the counter at 6; the seventh probe then fires
at instant 71, only 2 seconds later, although `2 < 2 ^ min 6 5 = 32` — so a
probe is attempted before `2 ^ min(check_count, 5)` seconds have elapsed and
the inter-probe gates are not non-decreasing with a 32-second cap. -/
theorem backoff_gate_wraps_counterexample :
    (runBackoff ⟨0, 0⟩ [2, 5, 10, 19, 36, 69]).snd = ⟨6, 69⟩
    ∧ (runBackoff ⟨0, 0⟩ [2, 5, 10, 19, 36, 69, 71]).fst =
        [true, true, true, true, true, true, true]
    ∧ 71 - 69 < 2 ^ min 6 MAX_BACKEND_CHECKS := by
  decide

/-- Witness for C5: part one applied at a mid-backoff state, part two at the
sixth probe (exponent has wrapped to 0), part three at a degraded limiter
whose probe fires and succeeds. -/
theorem backoff_gate_cycles_witness :
    (6 : Nat) - 2 > 2 ^ effectiveExponent ⟨1, 2⟩
    ∧ effectiveExponent (probeSeq 6) = 0
    ∧ (degradedStep degradedMarkedState false "routes.m" 70 true).fst.checkBackendCount = 0 := by
  refine ⟨backoff_gate_cycles.1 ⟨1, 2⟩ 6 (by decide), ?_, ?_⟩
  · have h := (backoff_gate_cycles.2.1 6).2
    simpa using h
  · exact (backoff_gate_cycles.2.2 degradedMarkedState false "routes.m" 70 rfl rfl rfl
      (by decide)).1

/-! ### C9: malformed static quota expressions at registration time -/

/-- C9 amended: a malformed static quota expression is detected at
registration time — the parse failure is caught and logged, registration
completes without raising, and the operation is registered with an empty
static quota list from that expression; startup is not aborted. -/
theorem malformed_quota_logged_and_skipped (st : LimiterState) (name : String)
    (limitValue : String) (keyFunc : Request → String) (shared : Bool)
    (scope : Option String) (perMethod : Bool) (methods : Option (List String))
    (errorMessage : Option String) (exemptWhen : Option (Request → Bool))
    (cost : Request → Nat) (overrideDefaults : Bool)
    (hbad : parse_many limitValue = none) :
    registerStaticRoute st name limitValue keyFunc shared scope perMethod methods
        errorMessage exemptWhen cost overrideDefaults true =
      .ok { st with
        markedForLimiting :=
          if st.markedForLimiting.contains name then st.markedForLimiting
          else st.markedForLimiting ++ [name]
        routeLimits := assocExtend st.routeLimits name [] } := by
  simp [registerStaticRoute, hbad]

/-- The length of the static-limit registry entry of `name` after a
registration outcome (none when registration raised). -/
def regRouteEntrySizes (r : Except String LimiterState) (name : String) :
    Option (Option Nat) :=
  match r with
  | .ok st1 => some ((assocGet st1.routeLimits name).map List.length)
  | .error _ => none

/-- C9 counterexample: "5/bogus" is malformed, yet registration completes
without raising and the operation ends up registered with an empty static
quota list — startup is not aborted and the quota is silently dropped. -/
theorem malformed_quota_silent_registration_counterexample :
    parse_many "5/bogus" = none
    ∧ regRouteEntrySizes
        (registerStaticRoute baseState "routes.f" "5/bogus" get_ipaddr false none false
          none none none (fun _ => 1) true true) "routes.f" = some (some 0) :=
  ⟨by decide, rfl⟩

/-- Witness for C9: registering the malformed "10 per fortnight" succeeds
and leaves an empty entry. -/
theorem malformed_quota_logged_and_skipped_witness :
    registerStaticRoute baseState "routes.g" "10 per fortnight" get_remote_address false
        none false none none none (fun _ => 1) true true =
      .ok { baseState with
        markedForLimiting :=
          if baseState.markedForLimiting.contains "routes.g" then
            baseState.markedForLimiting
          else baseState.markedForLimiting ++ ["routes.g"]
        routeLimits := assocExtend baseState.routeLimits "routes.g" [] } :=
  malformed_quota_logged_and_skipped baseState "routes.g" "10 per fortnight"
    get_remote_address false none false none none none (fun _ => 1) true (by decide)

/-! ### C3: agreement of the two enforcement adapters -/

/-- Assembling with no route limits of its own always appends the defaults
(`combined_defaults` over an empty list is vacuously true). -/
theorem assembleLimits_nil (st1 : LimiterState) (inMiddleware : Bool) (name : String) :
    assembleLimits st1 inMiddleware name [] =
      (if inMiddleware then st1.applicationLimits.flatten else []) ++
        st1.defaultLimits.flatten := by
  unfold assembleLimits
  simp [combinedDefaults]

theorem degradedStep_preserves_registries (st : LimiterState) (inMiddleware : Bool)
    (name : String) (now : Nat) (probeOk : Bool) :
    (degradedStep st inMiddleware name now probeOk).fst.applicationLimits
        = st.applicationLimits
    ∧ (degradedStep st inMiddleware name now probeOk).fst.defaultLimits = st.defaultLimits
    ∧ (degradedStep st inMiddleware name now probeOk).fst.markedForLimiting
        = st.markedForLimiting := by
  unfold degradedStep
  refine ⟨?_, ?_, ?_⟩ <;> (split_ifs <;> simp [apply_ite])

/-- C3 amended: the two adapters reach the same decision (indeed the same
complete outcome) whenever the operation has no bindings of its own (no
static entry, no dynamic limits, not marked for limiting) and the
application-wide quota list is empty and no storage error occurs; in
general the middleware path evaluates the application-wide quotas plus
defaults while the per-operation path evaluates the operation's own quotas,
so their decisions can differ. -/
theorem adapters_agree_without_own_bindings (st : LimiterState) (request : Request)
    (endpointFunc : Option String) (now : Nat) (probeOk : Bool)
    (hstat : assocGet st.routeLimits (endpointName endpointFunc) = none)
    (hdyn : gatherDynamic st (endpointName endpointFunc) request = [])
    (hmk : st.markedForLimiting.contains (endpointName endpointFunc) = false)
    (happ : st.applicationLimits.flatten = []) :
    checkRequestLimit st request endpointFunc true now probeOk false =
      checkRequestLimit st request endpointFunc false now probeOk false := by
  have hdeg : degradedStep st true (endpointName endpointFunc) now probeOk =
      degradedStep st false (endpointName endpointFunc) now probeOk := by
    unfold degradedStep
    have hT : (true && st.markedForLimiting.contains (endpointName endpointFunc)) = false := by
      rw [hmk]
      rfl
    have hF : (false && st.markedForLimiting.contains (endpointName endpointFunc)) = false :=
      Bool.false_and _
    rw [hT, hF]
  have hpr := degradedStep_preserves_registries st false (endpointName endpointFunc)
    now probeOk
  have hchosen : chosenLimits st request endpointFunc true now probeOk =
      chosenLimits st request endpointFunc false now probeOk := by
    simp only [chosenLimits]
    rw [hdeg]
    by_cases hie :
        (degradedStep st false (endpointName endpointFunc) now probeOk).snd.isEmpty = true
    · rw [if_pos hie, if_pos hie]
      have hroute1 : routeGather st true (endpointName endpointFunc) request = [] := by
        simp [routeGather]
      have hroute2 : routeGather st false (endpointName endpointFunc) request = [] := by
        simp [routeGather, hstat, hdyn]
      rw [hroute1, hroute2, assembleLimits_nil, assembleLimits_nil, hpr.1, happ]
      rw [if_pos rfl, if_neg Bool.false_ne_true]
    · rw [if_neg hie, if_neg hie]
  by_cases hearly : earlyReturn st request endpointFunc = true
  · have h1 : checkAttempt st request endpointFunc true now probeOk false = .earlyPass st := by
      unfold checkAttempt
      rw [if_pos hearly]
    have h2 : checkAttempt st request endpointFunc false now probeOk false = .earlyPass st := by
      unfold checkAttempt
      rw [if_pos hearly]
    rw [checkRequestLimit_eq, checkRequestLimit_eq, h1, h2]
  · have hne : ¬(earlyReturn st request endpointFunc = true) := hearly
    have hattT : checkAttempt st request endpointFunc true now probeOk false =
        attemptEvaluate
          (degradedStep st true (endpointName endpointFunc) now probeOk).fst request
          (endpointKeyOf st request (endpointName endpointFunc))
          (chosenLimits st request endpointFunc true now probeOk) false := by
      unfold checkAttempt
      rw [if_neg hne]
    have hattF : checkAttempt st request endpointFunc false now probeOk false =
        attemptEvaluate
          (degradedStep st false (endpointName endpointFunc) now probeOk).fst request
          (endpointKeyOf st request (endpointName endpointFunc))
          (chosenLimits st request endpointFunc false now probeOk) false := by
      unfold checkAttempt
      rw [if_neg hne]
    rw [hdeg, hchosen] at hattT
    rcases attemptEvaluate_no_failure
        (degradedStep st false (endpointName endpointFunc) now probeOk).fst request
        (endpointKeyOf st request (endpointName endpointFunc))
        (chosenLimits st request endpointFunc false now probeOk) false
        (Bool.and_false _) with ⟨st2, v, h2⟩ | ⟨st2, fl, v, h2⟩ <;>
    · rw [checkRequestLimit_eq, checkRequestLimit_eq, hattT, hattF, h2]

/-- Witness for C3: on a limiter with no bindings anywhere, both adapters
produce identical outcomes for the same request/operation pair. -/
theorem adapters_agree_without_own_bindings_witness :
    checkRequestLimit baseState demoReq (some "routes.z") true 0 false false =
      checkRequestLimit baseState demoReq (some "routes.z") false 0 false false :=
  adapters_agree_without_own_bindings baseState demoReq (some "routes.z") 0 false
    rfl rfl rfl rfl

/-- A "1/minute" route binding as produced by `limiter.limit("1/minute")`. -/
def demoRouteLimit1 : Limit :=
  { limit := ⟨1, 1, 60⟩
    keyFunc := get_ipaddr
    scope := none
    perMethod := false
    methods := none
    errorMessage := none
    exemptWhen := none
    cost := fun _ => 1
    overrideDefaults := true }

/-- A limiter whose operation "routes.f" bound "1/minute" and whose counter
for that key already holds one hit. -/
def adapterDisagreeState : LimiterState :=
  { baseState with
    routeLimits := [("routes.f", [demoRouteLimit1])]
    markedForLimiting := ["routes.f"]
    primaryStore := [(⟨["203.0.113.7", "/t1"], ⟨1, 1, 60⟩⟩, 1)] }

/-- C3 counterexample: for the same (request, operation) pair the
per-operation check (in_middleware=false) raises `RateLimitExceeded`
while the middleware check (in_middleware=true) admits — the middleware
path never evaluates the operation's own quotas. -/
theorem adapters_disagree_counterexample :
    (checkRequestLimit adapterDisagreeState demoReq (some "routes.f") false 0 false
        false).raised.isSome = true
    ∧ (checkRequestLimit adapterDisagreeState demoReq (some "routes.f") true 0 false
        false).raised.isSome = false := by
  decide

/-! ### C8: the quota recorded for header rendering -/

theorem tightest_concat (acc : List (RateLimitItem × List String))
    (p : RateLimitItem × List String) :
    tightest (acc ++ [p]) = headerUpd (tightest acc) p := by
  unfold tightest
  rw [List.foldl_append]
  rfl

set_option maxHeartbeats 1600000 in
/-- The header-tracking invariant of the evaluation loop: starting from the
tightest of the already-considered pairs, the loop records on success the
tightest of all considered pairs, and on denial the denied limit itself. -/
theorem evalLoop_view (keyPref : String) (request : Request) (endpoint : String) :
    ∀ (ls : List Limit) (store : Store) (acc : List (RateLimitItem × List String)),
      ((evalLimitsLoop keyPref request endpoint false store (tightest acc) acc
          ls).failedLimit = none →
        (evalLimitsLoop keyPref request endpoint false store (tightest acc) acc
            ls).viewRateLimit =
          tightest (evalLimitsLoop keyPref request endpoint false store (tightest acc) acc
            ls).considered)
      ∧ ∀ fl,
          (evalLimitsLoop keyPref request endpoint false store (tightest acc) acc
            ls).failedLimit = some fl →
          ∃ args,
            (evalLimitsLoop keyPref request endpoint false store (tightest acc) acc
              ls).viewRateLimit = some (fl.limit, args) := by
  intro ls
  induction ls with
  | nil =>
    intro store acc
    exact ⟨fun _ => rfl, fun fl h => Option.noConfusion h⟩
  | cons lim rest ih =>
    intro store acc
    simp only [evalLimitsLoop, Bool.false_eq_true, if_false]
    repeat' split
    all_goals
      first
      | exact ih _ _
      | (rw [← tightest_concat]; exact ih _ _)
      | exact ⟨fun h => Option.noConfusion h,
          fun fl hfl => by obtain rfl := Option.some.inj hfl; exact ⟨_, rfl⟩⟩

/-- C8 amended: when every evaluated quota passes, the quota recorded on
the request context is the tightest (smallest amount, first on ties) among
the quotas that reached the counter store; when a quota denies, evaluation
stops and the denied quota itself (with its key) is recorded instead,
regardless of its amount. -/
theorem header_quota_tracking (keyPref : String) (request : Request)
    (endpoint : String) (limits : List Limit) (store : Store) :
    ((evaluateLimits keyPref request endpoint false store limits).failedLimit = none →
      (evaluateLimits keyPref request endpoint false store limits).viewRateLimit =
        tightest (evaluateLimits keyPref request endpoint false store limits).considered)
    ∧ ∀ fl,
        (evaluateLimits keyPref request endpoint false store limits).failedLimit = some fl →
        ∃ args,
          (evaluateLimits keyPref request endpoint false store limits).viewRateLimit =
            some (fl.limit, args) :=
  evalLoop_view keyPref request endpoint limits store []

/-- A tight "3/minute" binding keyed to a fresh bucket "k2". -/
def tightLimitA : Limit :=
  { limit := ⟨3, 1, 60⟩
    keyFunc := fun _ => "k2"
    scope := none
    perMethod := false
    methods := none
    errorMessage := none
    exemptWhen := none
    cost := fun _ => 1
    overrideDefaults := true }

/-- A looser "5/minute" binding keyed to an exhausted bucket "k1". -/
def looseLimitB : Limit :=
  { limit := ⟨5, 1, 60⟩
    keyFunc := fun _ => "k1"
    scope := none
    perMethod := false
    methods := none
    errorMessage := none
    exemptWhen := none
    cost := fun _ => 1
    overrideDefaults := true }

/-- C8 counterexample: the tight 3/minute quota passes and the looser
5/minute quota denies; the recorded header quota is the denied 5/minute
one, not the tightest (3/minute) among the evaluated quotas. -/
theorem header_quota_overwritten_counterexample :
    (evaluateLimits "" demoReq "/e" false [(⟨["k1", "/e"], ⟨5, 1, 60⟩⟩, 5)]
        [tightLimitA, looseLimitB]).viewRateLimit = some (⟨5, 1, 60⟩, ["k1", "/e"])
    ∧ (evaluateLimits "" demoReq "/e" false [(⟨["k1", "/e"], ⟨5, 1, 60⟩⟩, 5)]
        [tightLimitA, looseLimitB]).considered.map Prod.fst = [⟨3, 1, 60⟩, ⟨5, 1, 60⟩]
    ∧ (3 : Nat) < 5 := by
  decide

/-- Witness for C8: a fully-passing evaluation records exactly the tightest
considered quota. -/
theorem header_quota_tracking_witness :
    (evaluateLimits "" demoReq "/t1" false [] [demoLimit5]).viewRateLimit =
      tightest (evaluateLimits "" demoReq "/t1" false [] [demoLimit5]).considered :=
  (header_quota_tracking "" demoReq "/t1" [demoLimit5] []).1 rfl

/-! ### C6: the re-entrancy guard across the two adapters -/

/-- A dynamic "7/minute" binding that does not override the defaults. -/
def demoDynLimit : Limit :=
  { limit := ⟨7, 1, 60⟩
    keyFunc := get_ipaddr
    scope := none
    perMethod := false
    methods := none
    errorMessage := none
    exemptWhen := none
    cost := fun _ => 1
    overrideDefaults := false }

/-- A limiter with a process-wide default "10/minute" and an operation
"routes.d" carrying only a dynamic binding (so the middleware does not
exempt it). -/
def doubleChargeState : LimiterState :=
  { baseState with
    defaultLimits := [[demoDefaultLimit]]
    dynamicRouteLimits := [("routes.d", [fun _ => some [demoDynLimit]])]
    markedForLimiting := ["routes.d"] }

/-- The middleware adapter running first on a fresh request. -/
def mwFirstPass : AdapterOut :=
  middlewareDispatch doubleChargeState demoReq false (some "routes.d") 0 false false

/-- The decorator adapter running afterwards on the same request. -/
def decoratorSecondPass : DecoratorOut :=
  decoratorWrapperCheck mwFirstPass.state demoReq mwFirstPass.flag "routes.d" 0 false false

/-- C6 counterexample: the middleware runs the check first but leaves the
request's `_rate_limiting_complete` flag unset, so the decorator's check is
not a no-op: the default quota's counter is charged by both adapters and
holds 2 after one request. -/
theorem double_charge_counterexample :
    mwFirstPass.flag = false
    ∧ Store.get mwFirstPass.state.primaryStore
        ⟨["203.0.113.7", "/t1"], ⟨10, 1, 60⟩⟩ = 1
    ∧ Store.get decoratorSecondPass.state.primaryStore
        ⟨["203.0.113.7", "/t1"], ⟨10, 1, 60⟩⟩ = 2 := by
  decide

/-- C6 amended: the `_rate_limiting_complete` flag is written only by the
decorator adapter — the middleware reads it but never sets it.  Once the
flag is set, either adapter's check is a no-op (state untouched), and the
decorator sets it after a successful check; but a middleware check followed
by a decorator check runs two chargeable evaluations, as the counterexample
shows. -/
theorem flag_set_only_by_decorator :
    (∀ (st : LimiterState) (request : Request) (handler : Option String) (now : Nat)
        (probeOk primaryFails flag : Bool),
      (middlewareDispatch st request flag handler now probeOk primaryFails).flag = flag)
    ∧ (∀ (st : LimiterState) (request : Request) (handler : Option String) (now : Nat)
        (probeOk primaryFails : Bool),
      middlewareDispatch st request true handler now probeOk primaryFails =
        ⟨.passThrough, false, true, st⟩)
    ∧ (∀ (st : LimiterState) (request : Request) (funcName : String) (now : Nat)
        (probeOk primaryFails : Bool),
      decoratorWrapperCheck st request true funcName now probeOk primaryFails =
        ⟨none, true, st⟩)
    ∧ (∀ (st : LimiterState) (request : Request) (funcName : String) (now : Nat)
        (probeOk primaryFails : Bool) (r : CheckResult),
      st.enabled = true → st.autoCheck = true →
      r = checkRequestLimit st request (some funcName) false now probeOk primaryFails →
      r.raised = none →
      decoratorWrapperCheck st request false funcName now probeOk primaryFails =
        ⟨none, true, r.state⟩) := by
  refine ⟨?_, ?_, ?_, ?_⟩
  · intro st request handler now probeOk primaryFails flag
    unfold middlewareDispatch checkLimitsMw
    repeat' split
    all_goals try rfl
    all_goals
      cases hr : (checkRequestLimit st request handler true now probeOk primaryFails).raised
        with
      | none => simp [hr]
      | some e => cases e <;> simp [hr]
  · intro st request handler now probeOk primaryFails
    unfold middlewareDispatch checkLimitsMw
    repeat' split
    all_goals simp_all
  · intro st request funcName now probeOk primaryFails
    unfold decoratorWrapperCheck
    repeat' split
    all_goals simp_all
  · intro st request funcName now probeOk primaryFails r hen hau hr hnone
    unfold decoratorWrapperCheck
    rw [hen]
    simp only [if_true]
    rw [hau]
    simp only [Bool.not_false, Bool.and_self, if_true]
    rw [← hr, hnone]

/-- Witness for C6: the decorator adapter on a fresh request performs its
check and then sets the flag. -/
theorem flag_set_only_by_decorator_witness :
    decoratorWrapperCheck baseState demoReq false "routes.z" 0 false false =
      ⟨none, true,
        (checkRequestLimit baseState demoReq (some "routes.z") false 0 false false).state⟩ :=
  flag_set_only_by_decorator.2.2.2 baseState demoReq "routes.z" 0 false false
    (checkRequestLimit baseState demoReq (some "routes.z") false 0 false false)
    rfl rfl rfl (by rfl)

end Kanae
